import Mathlib

/-!
Verification development for the node-dsu server (src/src/index.ts), a
cemuhook-protocol UDP controller server. The program is shallowly embedded:
Buffers become `List Nat` of byte values, mutation becomes explicit state
passing (functions that mutate their argument return the final buffer as a
second component), thrown exceptions become `Except`, and the JS numbers
involved are integers, modelled as `Nat`/`Int`. Out-of-bounds indexed writes
on a Buffer are dropped by Node, which is exactly the behaviour of
`List.set`; out-of-bounds indexed reads yield `undefined` and are modelled by
`List.getD _ _ 0` under length hypotheses that keep the two semantics in
agreement (noted at each use site).
-/

set_option autoImplicit false

/-- Read a byte of a buffer; out-of-range reads are only used in contexts
where either the surrounding theorem carries a length hypothesis or Node
itself coerces the resulting `undefined` to 0 on a Buffer write. -/
def byteAt (msg : List Nat) (i : Nat) : Nat := msg.getD i 0

/-- Model of `src.copy(dst, offset)` for Node Buffers: write the bytes of
`src` into `dst` starting at `offset`; writes past the end of `dst` are
dropped (Buffer.copy truncates), which is `List.set` behaviour. -/
def bufCopy : List Nat → Nat → List Nat → List Nat
  | dst, _, [] => dst
  | dst, off, b :: rest => bufCopy (dst.set off b) (off + 1) rest

/-- Model of `DSU_number2buffer(n, size)` (index.ts lines 262-269): little
endian buffer of `size` bytes, `b[i] = n % 256; n = Math.floor(n / 256)`. -/
def DSU_number2buffer : Nat → Nat → List Nat
  | _, 0 => []
  | n, size + 1 => (n % 256) :: DSU_number2buffer (n / 256) size

/-- Model of `DSU_littleEndian2number(buffer)` (index.ts lines 274-282):
`n += buffer[i] * multiplier; multiplier *= 256` accumulated over the whole
buffer, written as the equivalent structural recursion. -/
def DSU_littleEndian2number : List Nat → Nat
  | [] => 0
  | b :: rest => b + 256 * DSU_littleEndian2number rest

/-- Model of `msg[8] = 0; msg[9] = 0; msg[10] = 0; msg[11] = 0` at the start
of `DSU_calcCRC32` (index.ts lines 242-245). -/
def zeroCRCField (msg : List Nat) : List Nat :=
  (((msg.set 8 0).set 9 0).set 10 0).set 11 0

/-- One polynomial-division round of the crc-32 npm dependency table
generator: `c = (c & 1) ? (-306674912 ^ (c >>> 1)) : (c >>> 1)`, on the
unsigned 32-bit representation (-306674912 has bit pattern 0xEDB88320). -/
def crc32_round (c : Nat) : Nat :=
  if c % 2 = 1 then Nat.xor 0xEDB88320 (c / 2) else c / 2

/-- Entry `n` of the crc-32 dependency lookup table: eight rounds applied to
the byte value `n`. -/
def crc32_table (n : Nat) : Nat :=
  crc32_round (crc32_round (crc32_round (crc32_round
    (crc32_round (crc32_round (crc32_round (crc32_round n)))))))

/-- One byte step of `crc32_buf` from the crc-32 dependency:
`C = (C >>> 8) ^ TABLE[(C ^ B[i]) & 0xFF]`, on unsigned representations. -/
def crc32_step (C b : Nat) : Nat :=
  Nat.xor (C / 256) (crc32_table ((Nat.xor C b) % 256))

/-- Unsigned 32-bit value of `crc.buf(data, 0)` from the crc-32 dependency:
`C = seed ^ -1` (so 0xFFFFFFFF for seed 0), one table step per byte, final
complement. -/
def crcUnsigned (data : List Nat) : Nat :=
  Nat.xor (data.foldl crc32_step 0xFFFFFFFF) 0xFFFFFFFF

/-- Signed 32-bit result actually returned by `crc.buf(data, 0)` (the
dependency returns a JS int32, negative when bit 31 is set). -/
def crcSigned (data : List Nat) : Int :=
  let u := crcUnsigned data
  if u < 2 ^ 31 then (u : Int) else (u : Int) - 2 ^ 32

/-- Model of `DSU_calcCRC32(msg)` (index.ts lines 241-256). The JS method
mutates `msg` (zeroing bytes 8-11) and returns the checksum as an 8-char hex
string of the 4 little-endian bytes; hex encoding of a fixed-length byte list
being injective, the checksum is modelled as the 4-byte list itself. The
mutated buffer is returned as the second component. -/
def DSU_calcCRC32 (msg : List Nat) : List Nat × List Nat :=
  let m := zeroCRCField msg
  let c : Int := crcSigned m
  let bigInt : Int := if c < 0 then c + 2 ^ 32 else c
  (DSU_number2buffer bigInt.toNat 4, m)

/-- The closed `MessageTypes` union of index.ts lines 4-10. -/
inductive MessageTypes where
  | ProtocolVersionInformation
  | ConnectedControllers
  | ControllerData
  | ControllerMotor
  | Rumble
  | Unknown
  deriving DecidableEq, Repr

/-- Model of `DSU_messageType2buffer(type)` (index.ts lines 298-308). Note
that ControllerMotor and Rumble are encoded from the decimal literals 110001
and 110002. -/
def DSU_messageType2buffer : MessageTypes → List Nat
  | .ProtocolVersionInformation => [0x00, 0x00, 0x10, 0x00]
  | .ConnectedControllers => [0x01, 0x00, 0x10, 0x00]
  | .ControllerData => [0x02, 0x00, 0x10, 0x00]
  | .ControllerMotor => DSU_number2buffer 110001 4
  | .Rumble => DSU_number2buffer 110002 4
  | .Unknown => DSU_number2buffer 0 4

/-- Model of `DSU_generateMessage(type, data)` (index.ts lines 314-343),
with the 4-byte `DATA_CONTROLLERID` passed explicitly as `senderID`.
Header: ASCII "DSUS" (bytes 68,83,85,83) at 0, version 1001 LE at 4,
senderID at 12; packet length `result.length - 16` LE at 6; checksum
computed last and copied to offset 8 (`DSU_calcCRC32` zeroes 8-11, which are
still zero at that point, and its hex-string result is byte-wise the 4-byte
LE checksum). -/
def DSU_generateMessage (senderID : List Nat) (type : MessageTypes)
    (data : List Nat) : List Nat :=
  let header := bufCopy (bufCopy (bufCopy (List.replicate 16 0) 0
    [0x44, 0x53, 0x55, 0x53]) 4 (DSU_number2buffer 1001 2)) 12 senderID
  let messageTypeBuffer := DSU_messageType2buffer type
  let result := header ++ messageTypeBuffer ++ data
  let packetLength := DSU_number2buffer (result.length - header.length) 2
  let result := bufCopy result 6 packetLength
  let crcres := DSU_calcCRC32 result
  bufCopy crcres.2 8 crcres.1

/-- The `DSUHeader` record of index.ts lines 14-20. `dsuType` is kept as the
4 raw tag bytes (the source converts them to a string); `CRC32` is kept as
the 4 raw checksum bytes (the source renders them as a hex string, an
injective encoding of a 4-byte list). -/
structure DSUHeader where
  dsuType : List Nat
  version : Nat
  packetLength : Nat
  CRC32 : List Nat
  senderID : Nat
  deriving DecidableEq, Repr

/-- The two exceptions thrown by `DSU_parseMessage` (index.ts lines
387-395). -/
inductive ParseError where
  | lengthMismatch
  | crcMismatch
  deriving DecidableEq, Repr

/-- The message-type lookup of index.ts lines 357-369: the wire code is read
as a little-endian number, rendered with `toString(16)` and looked up among
the string keys 100000/100001/100002/110001/110002 with fallback "Unknown".
Since `toString(16)` is injective, matching the hex string against a key is
the same as comparing the number with the key read as hexadecimal. -/
def hexKeyToType (n : Nat) : MessageTypes :=
  if n = 0x100000 then .ProtocolVersionInformation
  else if n = 0x100001 then .ConnectedControllers
  else if n = 0x100002 then .ControllerData
  else if n = 0x110001 then .ControllerMotor
  else if n = 0x110002 then .Rumble
  else .Unknown

/-- Model of `DSU_parseMessage(msg)` (index.ts lines 348-407). The source
mutates the caller buffer through `DSU_calcCRC32`; the mutated buffer is the
second component. The declared CRC32 is captured (as a hex string, modelled
as its 4 bytes) before the checksum is recomputed, exactly as in the source
where `headerData` is built before `calculatedCRC32`. Byte reads through
`byteAt` default to 0 where the source would read `undefined`; theorems
about the parse outcome carry a `16 ≤ msg.length` hypothesis under which
every header read is in range. -/
def DSU_parseMessage (msg : List Nat) :
    Except ParseError (DSUHeader × MessageTypes × List Nat) × List Nat :=
  let headerBuffer := msg.take 16
  let messageTypeBuffer := (msg.drop 16).take 4
  let messageBuffer := msg.drop 20
  let messageTypeNum := byteAt messageTypeBuffer 0
    + byteAt messageTypeBuffer 1 * 256
    + byteAt messageTypeBuffer 2 * (256 * 256)
    + byteAt messageTypeBuffer 3 * (256 * 256 * 256)
  let messageType := hexKeyToType messageTypeNum
  let headerData : DSUHeader :=
    { dsuType := headerBuffer.take 4
      version := byteAt headerBuffer 4 + byteAt headerBuffer 5 * 256
      packetLength := byteAt headerBuffer 6 + byteAt headerBuffer 7 * 256
      CRC32 := (headerBuffer.drop 8).take 4
      senderID := byteAt headerBuffer 12 + byteAt headerBuffer 13 * 256
        + byteAt headerBuffer 14 * (256 * 256)
        + byteAt headerBuffer 15 * (256 * 256 * 256) }
  let actualSize := msg.length - headerBuffer.length
  let crcres := DSU_calcCRC32 msg
  if actualSize ≠ headerData.packetLength then
    (.error .lengthMismatch, crcres.2)
  else if headerData.CRC32 ≠ crcres.1 then
    (.error .crcMismatch, crcres.2)
  else
    (.ok (headerData, messageType, messageBuffer), crcres.2)

/-- The declared body-length field of a raw frame: header bytes 6-7 LE. -/
def declaredLen (msg : List Nat) : Nat := byteAt msg 6 + byteAt msg 7 * 256

/-- The declared checksum field of a raw frame: header bytes 8-11. -/
def declaredCRC (msg : List Nat) : List Nat := (msg.drop 8).take 4

/-- Kind of a parse result, `none` on a thrown error. -/
def parseResultKind (msg : List Nat) : Option MessageTypes :=
  ((DSU_parseMessage msg).1.toOption).map (fun r => r.2.1)

/-- Body of a parse result, `none` on a thrown error. -/
def parseResultBody (msg : List Nat) : Option (List Nat) :=
  ((DSU_parseMessage msg).1.toOption).map (fun r => r.2.2)

/-- The DPAD component of `ControllerState` (index.ts lines 24-29). -/
structure DPadState where
  LEFT : Bool
  DOWN : Bool
  RIGHT : Bool
  UP : Bool

/-- The KEYS component of `ControllerState` (index.ts lines 30-36). -/
structure KeysState where
  OPTIONS : Bool
  R3 : Bool
  L3 : Bool
  SHARE : Bool
  HOME : Bool

/-- One analog stick (index.ts lines 37-44). -/
structure StickState where
  X : Nat
  Y : Nat

/-- The ANALOG.DPAD component (index.ts lines 46-51). -/
structure AnalogDPadState where
  LEFT : Nat
  DOWN : Nat
  RIGHT : Nat
  UP : Nat

/-- The ANALOG.KEYS component (index.ts lines 52-61). -/
structure AnalogKeysState where
  Y : Nat
  B : Nat
  A : Nat
  X : Nat
  R1 : Nat
  L1 : Nat
  R2 : Nat
  L2 : Nat

/-- The ANALOG component (index.ts lines 45-62). -/
structure AnalogState where
  DPAD : AnalogDPadState
  KEYS : AnalogKeysState

/-- Accelerometer sample; the JS values are doubles, serialized only through
`writeFloatLE`, so they are carried as `Float` and serialized through an
explicitly quantified packing function. -/
structure AccelState where
  X : Float
  Y : Float
  Z : Float

/-- Gyroscope sample, same treatment as `AccelState`. -/
structure GyroState where
  PITCH : Float
  YAW : Float
  ROLL : Float

/-- The MOTION component (index.ts lines 63-75); TIMESTAMP is a millisecond
count, serialized with `DSU_number2buffer`, hence `Nat`. -/
structure MotionState where
  TIMESTAMP : Nat
  ACCEL : AccelState
  GYRO : GyroState

/-- The `ControllerState` record of index.ts lines 22-76. -/
structure ControllerState where
  connected : Bool
  DPAD : DPadState
  KEYS : KeysState
  LSTICK : StickState
  RSTICK : StickState
  ANALOG : AnalogState
  MOTION : MotionState

/-- Model of `DSU_dummyState()` (index.ts lines 163-219): disconnected, all
zero. -/
def DSU_dummyState : ControllerState where
  connected := false
  DPAD := ⟨false, false, false, false⟩
  KEYS := ⟨false, false, false, false, false⟩
  LSTICK := ⟨0, 0⟩
  RSTICK := ⟨0, 0⟩
  ANALOG := ⟨⟨0, 0, 0, 0⟩, ⟨0, 0, 0, 0, 0, 0, 0, 0⟩⟩
  MOTION := ⟨0, ⟨0, 0, 0⟩, ⟨0, 0, 0⟩⟩

/-- Model of `DSU_setControllerState(index, state)` (index.ts lines
224-227), with the store `DATA_controllerStates` passed and returned
explicitly. The index is a JS number that may be negative, hence `Int`. On
`index < 0 || index > 3` the method throws before touching the store, so the
error result carries the unchanged store. -/
def DSU_setControllerState (states : List ControllerState) (index : Int)
    (state : ControllerState) : Except String Unit × List ControllerState :=
  if index < 0 ∨ 3 < index then (.error "Invalid controller index", states)
  else (.ok (), states.set index.toNat state)

/-- Model of `DSU_setControllersState(state)` (index.ts lines 232-236): the
whole store is replaced, unless the new array does not have length 4, in
which case the method throws before the assignment. -/
def DSU_setControllersState (states : List ControllerState)
    (state : List ControllerState) : Except String Unit × List ControllerState :=
  if state.length ≠ 4 then
    (.error "Invalid controller state array length", states)
  else (.ok (), state)

/-- Model of `DSU_getControllerState(index)` (index.ts lines 438-440):
`DATA_controllerStates[index]`, which is `undefined` out of range, hence
`Option`. -/
def DSU_getControllerState (states : List ControllerState) (index : Nat) :
    Option ControllerState :=
  states[index]?

/-- Model of `DSU_createControllerData(slot, enabled)` (index.ts lines
414-433), with the 4-byte `DATA_CONTROLLERID` passed explicitly. Note that
`Buffer.from(this.DATA_CONTROLLERID, 6)` copies the 4-byte id buffer whole
(the numeric second argument is ignored when the value is a Buffer), so
`MACADRESS[5] = slot` is an out-of-range write on a 4-byte buffer and is
dropped by Node, which is `List.set` behaviour. -/
def DSU_createControllerData (senderID : List Nat) (slot : Nat)
    (enabled : Bool) : List Nat :=
  let response := (List.replicate 12 0).set 0 (slot % 256)
  if !enabled then response else
    let response := (((response.set 1 0x02).set 2 0x02).set 3 0x01).set 10 0x05
    let MACADRESS := senderID.set 5 (slot % 256)
    let response := bufCopy response 4 MACADRESS
    response.set 11 0

/-- Model of the local `BOOL2BIT` of `DSU_state2buffer` (index.ts line
469). -/
def BOOL2BIT (b : Bool) : Nat := if b then 1 else 0

/-- Value accumulated by the local `BITMASK2BUFFER` loop (index.ts lines
470-476): `result += bitmask[i] * 2 ** i`. -/
def bitmaskValue : List Nat → Nat
  | [] => 0
  | b :: rest => b + 2 * bitmaskValue rest

/-- Model of the local `BITMASK2BUFFER` of `DSU_state2buffer`: the
accumulated value packed as a 1-byte buffer. -/
def BITMASK2BUFFER (bitmask : List Nat) : List Nat :=
  DSU_number2buffer (bitmaskValue bitmask) 1

/-- Model of `DSU_state2buffer(slot, state)` (index.ts lines 447-542); the
4-byte `DATA_CONTROLLERID` and the `writeFloatLE` 4-byte packing of a motion
scalar (`float2buffer`, lines 527-531) are passed explicitly, the latter
because IEEE-754 single packing is outside the integer embedding; every
theorem quantifies over it. -/
def DSU_state2buffer (float2buffer : Float → List Nat) (senderID : List Nat)
    (slot : Nat) (state : ControllerState) : List Nat :=
  let CONTROLLER_INFO := DSU_createControllerData senderID slot state.connected
  let CD := bufCopy (List.replicate 80 0) 0 CONTROLLER_INFO
  let CD := CD.set 11 (if state.connected then 0x01 else 0x00)
  let CD := CD.set 12 (byteAt senderID 0)
  let CD := CD.set 13 (byteAt senderID 1)
  let CD := CD.set 14 (byteAt senderID 2)
  let CD := CD.set 15 (slot % 256)
  let CD := CD.set 16 (byteAt (BITMASK2BUFFER
    [BOOL2BIT state.DPAD.LEFT, BOOL2BIT state.DPAD.DOWN,
     BOOL2BIT state.DPAD.RIGHT, BOOL2BIT state.DPAD.UP,
     BOOL2BIT state.KEYS.OPTIONS, BOOL2BIT state.KEYS.R3,
     BOOL2BIT state.KEYS.L3, BOOL2BIT state.KEYS.SHARE]) 0)
  let CD := CD.set 18 (byteAt (DSU_number2buffer (BOOL2BIT state.KEYS.HOME) 1) 0)
  let CD := bufCopy CD 20 (DSU_number2buffer state.LSTICK.X 1)
  let CD := bufCopy CD 21 (DSU_number2buffer state.LSTICK.Y 1)
  let CD := bufCopy CD 22 (DSU_number2buffer state.RSTICK.X 1)
  let CD := bufCopy CD 23 (DSU_number2buffer state.RSTICK.Y 1)
  let CD := bufCopy CD 24 (DSU_number2buffer state.ANALOG.DPAD.LEFT 1)
  let CD := bufCopy CD 25 (DSU_number2buffer state.ANALOG.DPAD.DOWN 1)
  let CD := bufCopy CD 26 (DSU_number2buffer state.ANALOG.DPAD.RIGHT 1)
  let CD := bufCopy CD 27 (DSU_number2buffer state.ANALOG.DPAD.UP 1)
  let CD := bufCopy CD 28 (DSU_number2buffer state.ANALOG.KEYS.Y 1)
  let CD := bufCopy CD 29 (DSU_number2buffer state.ANALOG.KEYS.B 1)
  let CD := bufCopy CD 30 (DSU_number2buffer state.ANALOG.KEYS.A 1)
  let CD := bufCopy CD 31 (DSU_number2buffer state.ANALOG.KEYS.X 1)
  let CD := bufCopy CD 32 (DSU_number2buffer state.ANALOG.KEYS.R1 1)
  let CD := bufCopy CD 33 (DSU_number2buffer state.ANALOG.KEYS.L1 1)
  let CD := bufCopy CD 34 (DSU_number2buffer state.ANALOG.KEYS.R2 1)
  let CD := bufCopy CD 35 (DSU_number2buffer state.ANALOG.KEYS.L2 1)
  let CD := bufCopy CD 48 (DSU_number2buffer state.MOTION.TIMESTAMP 8)
  let CD := bufCopy CD 56 (float2buffer state.MOTION.ACCEL.X)
  let CD := bufCopy CD 60 (float2buffer state.MOTION.ACCEL.Y)
  let CD := bufCopy CD 64 (float2buffer state.MOTION.ACCEL.Z)
  let CD := bufCopy CD 68 (float2buffer state.MOTION.GYRO.PITCH)
  let CD := bufCopy CD 72 (float2buffer state.MOTION.GYRO.YAW)
  let CD := bufCopy CD 76 (float2buffer state.MOTION.GYRO.ROLL)
  CD

/-- The ConnectedControllers loop of `UDP_DefaultHandler` (index.ts lines
565-575), modelled as the list of frames handed to `sendMessage`, starting
at loop index `slot` with `fuel` iterations left (the caller passes the full
count with `slot = 0`). The requested slot byte is `message.message[4 +
slot]` (an out-of-range read is `undefined`, which a Buffer write coerces to
0, matching the `byteAt` 0 default inside `DSU_createControllerData`),
while the connection flag is read from the loop index `slot`; when the loop
index reaches past the 4-entry store, `DSU_getControllerState` yields
`undefined` and reading `.connected` throws, aborting the loop (the
exception is caught by the surrounding try block). -/
def DSU_connectedLoop (senderID : List Nat) (states : List ControllerState)
    (body : List Nat) : Nat → Nat → List (List Nat)
  | _, 0 => []
  | slot, fuel + 1 =>
    match DSU_getControllerState states slot with
    | none => []
    | some st =>
      DSU_generateMessage senderID .ConnectedControllers
        (DSU_createControllerData senderID (byteAt body (4 + slot)) st.connected)
        :: DSU_connectedLoop senderID states body (slot + 1) fuel

/-- Model of `UDP_DefaultHandler(msg, info)` (index.ts lines 545-608): the
frames handed to `sendMessage`, in order, together with the store after the
call (the handler never writes the store). A thrown exception anywhere in
the try block is caught and ends the handler with the frames sent so far;
frames already handed to `sendMessage` are not unsent. In the ControllerData
branch, a missing index byte makes `CONTROLLER_INDEX` loosely equal to null
(`undefined == null`), which breaks with no response; an out-of-range index
makes `DSU_getControllerState` return `undefined`, so reading
`state.connected` inside `DSU_state2buffer` throws, which is caught with no
response. -/
def UDP_DefaultHandler (float2buffer : Float → List Nat) (senderID : List Nat)
    (states : List ControllerState) (msg : List Nat) :
    List (List Nat) × List ControllerState :=
  match (DSU_parseMessage msg).1 with
  | .error _ => ([], states)
  | .ok (_, messageType, body) =>
    match messageType with
    | .ConnectedControllers =>
      let slotCount2report := DSU_littleEndian2number (body.take 4)
      (DSU_connectedLoop senderID states body 0 slotCount2report, states)
    | .ControllerData =>
      if byteAt body 0 = 0x01 then
        match body[1]? with
        | none => ([], states)
        | some idx =>
          match DSU_getControllerState states idx with
          | none => ([], states)
          | some st =>
            ([DSU_generateMessage senderID .ControllerData
               (DSU_state2buffer float2buffer senderID idx st)], states)
      else if byteAt body 0 = 0x02 then
        match body[7]? with
        | none => ([], states)
        | some idx =>
          match DSU_getControllerState states idx with
          | none => ([], states)
          | some st =>
            ([DSU_generateMessage senderID .ControllerData
               (DSU_state2buffer float2buffer senderID idx st)], states)
      else ([], states)
    | _ => ([], states)

/-! ### Lemma layer: byte primitives -/

theorem DSU_number2buffer_length (n s : Nat) :
    (DSU_number2buffer n s).length = s := by
  induction s generalizing n with
  | zero => rfl
  | succ s ih => simp [DSU_number2buffer, ih]

theorem DSU_littleEndian2number_number2buffer (s n : Nat) :
    DSU_littleEndian2number (DSU_number2buffer n s) = n % 256 ^ s := by
  induction s generalizing n with
  | zero => simp [DSU_number2buffer, DSU_littleEndian2number, Nat.mod_one]
  | succ s ih =>
    simp only [DSU_number2buffer, DSU_littleEndian2number, ih]
    rw [pow_succ, mul_comm (256 ^ s) 256, Nat.mod_mul]

/-! ### Lemma layer: checksum engine -/

theorem crcUnsigned_lt_two_pow (data : List Nat) : crcUnsigned data < 2 ^ 32 := by
  have hstep : ∀ C b : Nat, C < 2 ^ 32 → crc32_step C b < 2 ^ 32 := by
    intro C b hC
    have hround : ∀ c : Nat, c < 2 ^ 32 → crc32_round c < 2 ^ 32 := by
      intro c hc
      unfold crc32_round
      split
      · exact Nat.xor_lt_two_pow (by norm_num) (by omega)
      · omega
    have htable : crc32_table ((Nat.xor C b) % 256) < 2 ^ 32 := by
      unfold crc32_table
      have h0 : (Nat.xor C b) % 256 < 2 ^ 32 :=
        lt_of_lt_of_le (Nat.mod_lt _ (by norm_num)) (by norm_num)
      repeat apply hround
      exact h0
    exact Nat.xor_lt_two_pow (by omega) htable
  have hfold : ∀ (l : List Nat) (C : Nat), C < 2 ^ 32 →
      l.foldl crc32_step C < 2 ^ 32 := by
    intro l
    induction l with
    | nil => intro C hC; simpa using hC
    | cons x xs ih => intro C hC; exact ih _ (hstep _ _ hC)
  exact Nat.xor_lt_two_pow (hfold data _ (by norm_num)) (by norm_num)

theorem calcCRC32_fst (msg : List Nat) :
    (DSU_calcCRC32 msg).1 = DSU_number2buffer (crcUnsigned (zeroCRCField msg)) 4 := by
  have h := crcUnsigned_lt_two_pow (zeroCRCField msg)
  simp only [DSU_calcCRC32, crcSigned]
  congr 1
  split_ifs with h1 h2 <;> omega

/-! ### Lemma layer: explicit form of generated frames -/

/-- Frame built by `DSU_generateMessage` just before the checksum is
computed: header with length field filled and checksum field still zero. -/
def preFrame (a b c d : Nat) (t : MessageTypes) (data : List Nat) : List Nat :=
  68 :: 83 :: 85 :: 83 :: 233 :: 3
    :: ((4 + data.length) % 256) :: ((4 + data.length) / 256 % 256)
    :: 0 :: 0 :: 0 :: 0 :: a :: b :: c :: d
    :: (DSU_messageType2buffer t ++ data)

/-- Unsigned checksum of a generated frame. -/
def crcVal (a b c d : Nat) (t : MessageTypes) (data : List Nat) : Nat :=
  crcUnsigned (preFrame a b c d t data)

/-- Explicit byte layout of `DSU_generateMessage [a,b,c,d] t data`. -/
def wireFrame (a b c d : Nat) (t : MessageTypes) (data : List Nat) : List Nat :=
  68 :: 83 :: 85 :: 83 :: 233 :: 3
    :: ((4 + data.length) % 256) :: ((4 + data.length) / 256 % 256)
    :: (crcVal a b c d t data % 256) :: (crcVal a b c d t data / 256 % 256)
    :: (crcVal a b c d t data / 256 / 256 % 256)
    :: (crcVal a b c d t data / 256 / 256 / 256 % 256)
    :: a :: b :: c :: d
    :: (DSU_messageType2buffer t ++ data)

theorem zeroCRCField_preFrame (a b c d : Nat) (t : MessageTypes) (data : List Nat) :
    zeroCRCField (preFrame a b c d t data) = preFrame a b c d t data := by
  simp [zeroCRCField, preFrame, List.set]

theorem zeroCRCField_wireFrame (a b c d : Nat) (t : MessageTypes) (data : List Nat) :
    zeroCRCField (wireFrame a b c d t data) = preFrame a b c d t data := by
  simp [zeroCRCField, wireFrame, preFrame, List.set]

theorem DSU_generateMessage_eq_wireFrame (a b c d : Nat) (t : MessageTypes)
    (data : List Nat) :
    DSU_generateMessage [a, b, c, d] t data = wireFrame a b c d t data := by
  have hheader : bufCopy (bufCopy (bufCopy (List.replicate 16 0) 0
      [0x44, 0x53, 0x55, 0x53]) 4 (DSU_number2buffer 1001 2)) 12 [a, b, c, d] =
      [68, 83, 85, 83, 233, 3, 0, 0, 0, 0, 0, 0, a, b, c, d] := rfl
  simp only [DSU_generateMessage, hheader]
  have hlen : ([68, 83, 85, 83, 233, 3, 0, 0, 0, 0, 0, 0, a, b, c, d] ++
      DSU_messageType2buffer t ++ data).length -
      ([68, 83, 85, 83, 233, 3, 0, 0, 0, 0, 0, 0, a, b, c, d] : List Nat).length =
      4 + data.length := by
    cases t <;> simp [DSU_messageType2buffer, DSU_number2buffer] <;> omega
  rw [hlen]
  have hpre : bufCopy ([68, 83, 85, 83, 233, 3, 0, 0, 0, 0, 0, 0, a, b, c, d] ++
      DSU_messageType2buffer t ++ data) 6 (DSU_number2buffer (4 + data.length) 2) =
      preFrame a b c d t data := by
    simp [bufCopy, DSU_number2buffer, preFrame, List.set]
  rw [hpre]
  have hcrc2 : (DSU_calcCRC32 (preFrame a b c d t data)).2 = preFrame a b c d t data := by
    simp only [DSU_calcCRC32]
    exact zeroCRCField_preFrame a b c d t data
  have hcrc1 : (DSU_calcCRC32 (preFrame a b c d t data)).1 =
      DSU_number2buffer (crcVal a b c d t data) 4 := by
    rw [calcCRC32_fst, zeroCRCField_preFrame]
    rfl
  rw [hcrc1, hcrc2]
  simp [bufCopy, DSU_number2buffer, preFrame, wireFrame, List.set, Nat.div_div_eq_div_mul]

theorem DSU_parseMessage_wireFrame (a b c d : Nat) (t : MessageTypes) (data : List Nat)
    (h : 4 + data.length < 65536) :
    (DSU_parseMessage (wireFrame a b c d t data)).1 =
      Except.ok
        ({ dsuType := [68, 83, 85, 83], version := 1001,
           packetLength := 4 + data.length,
           CRC32 := DSU_number2buffer (crcVal a b c d t data) 4,
           senderID := a + b * 256 + c * (256 * 256) + d * (256 * 256 * 256) },
         hexKeyToType (DSU_littleEndian2number (DSU_messageType2buffer t)), data) := by
  have hT16 : (wireFrame a b c d t data).take 16 =
      [68, 83, 85, 83, 233, 3, (4 + data.length) % 256, (4 + data.length) / 256 % 256,
       crcVal a b c d t data % 256, crcVal a b c d t data / 256 % 256,
       crcVal a b c d t data / 256 / 256 % 256,
       crcVal a b c d t data / 256 / 256 / 256 % 256, a, b, c, d] := by
    simp [wireFrame]
  have hD16 : ((wireFrame a b c d t data).drop 16).take 4 =
      DSU_messageType2buffer t := by
    cases t <;> simp [wireFrame, DSU_messageType2buffer, DSU_number2buffer]
  have hD20 : (wireFrame a b c d t data).drop 20 = data := by
    cases t <;> simp [wireFrame, DSU_messageType2buffer, DSU_number2buffer]
  have hLen : (wireFrame a b c d t data).length = 20 + data.length := by
    cases t <;> simp [wireFrame, DSU_messageType2buffer, DSU_number2buffer_length] <;> omega
  have hCRC1 : (DSU_calcCRC32 (wireFrame a b c d t data)).1 =
      DSU_number2buffer (crcVal a b c d t data) 4 := by
    rw [calcCRC32_fst, zeroCRCField_wireFrame]
    rfl
  have hkind : byteAt (DSU_messageType2buffer t) 0
      + byteAt (DSU_messageType2buffer t) 1 * 256
      + byteAt (DSU_messageType2buffer t) 2 * (256 * 256)
      + byteAt (DSU_messageType2buffer t) 3 * (256 * 256 * 256)
      = DSU_littleEndian2number (DSU_messageType2buffer t) := by
    cases t <;> rfl
  simp only [DSU_parseMessage, hT16, hD16, hD20, hLen, hCRC1, hkind]
  rw [if_neg, if_neg]
  · simp [byteAt, List.getD, DSU_number2buffer]
    omega
  · simp [byteAt, List.getD, DSU_number2buffer]
  · simp [byteAt, List.getD]
    omega

/-- Decoded kind of each generated frame: the three 0x0010000x kinds decode
to themselves, while ControllerMotor, Rumble and Unknown all decode to
Unknown (the encoder wrote the decimal literals 110001/110002, the decoder
matched the hexadecimal rendering). -/
theorem hexKeyToType_roundtrip :
    hexKeyToType (DSU_littleEndian2number
      (DSU_messageType2buffer .ProtocolVersionInformation)) = .ProtocolVersionInformation
    ∧ hexKeyToType (DSU_littleEndian2number
      (DSU_messageType2buffer .ConnectedControllers)) = .ConnectedControllers
    ∧ hexKeyToType (DSU_littleEndian2number
      (DSU_messageType2buffer .ControllerData)) = .ControllerData
    ∧ hexKeyToType (DSU_littleEndian2number
      (DSU_messageType2buffer .ControllerMotor)) = .Unknown
    ∧ hexKeyToType (DSU_littleEndian2number
      (DSU_messageType2buffer .Rumble)) = .Unknown := by
  refine ⟨rfl, rfl, rfl, rfl, rfl⟩

/-! ### Lemma layer: buffer access helpers -/

theorem bufCopy_length (src : List Nat) : ∀ (dst : List Nat) (off : Nat),
    (bufCopy dst off src).length = dst.length := by
  induction src with
  | nil => intro dst off; rfl
  | cons b rest ih => intro dst off; simp [bufCopy, ih]

theorem byteAt_append_right (l₁ l₂ : List Nat) (i : Nat) :
    byteAt (l₁ ++ l₂) (l₁.length + i) = byteAt l₂ i := by
  simp [byteAt, List.getD_eq_getElem?_getD, List.getElem?_append_right]

/-! ### Lemma layer: dispatcher -/

theorem DSU_connectedLoop_map (id : List Nat) (states : List ControllerState)
    (body : List Nat) : ∀ (fuel slot : Nat),
    DSU_connectedLoop id states body slot fuel
      = (List.range (min fuel (states.length - slot))).map (fun i =>
          DSU_generateMessage id .ConnectedControllers
            (DSU_createControllerData id (byteAt body (4 + slot + i))
              ((states.getD (slot + i) DSU_dummyState).connected))) := by
  intro fuel
  induction fuel with
  | zero => intro slot; simp [DSU_connectedLoop]
  | succ fuel ih =>
    intro slot
    rw [DSU_connectedLoop]
    cases hstate : DSU_getControllerState states slot with
    | none =>
      have hge : states.length ≤ slot := by
        by_contra hlt
        push_neg at hlt
        simp [DSU_getControllerState, List.getElem?_eq_getElem hlt] at hstate
      have hz : states.length - slot = 0 := by omega
      simp [hz]
    | some st =>
      have hlt : slot < states.length := by
        by_contra hge
        push_neg at hge
        simp [DSU_getControllerState, List.getElem?_eq_none_iff.mpr hge] at hstate
      have hmin : min (fuel + 1) (states.length - slot) =
          min fuel (states.length - (slot + 1)) + 1 := by omega
      rw [ih (slot + 1), hmin, List.range_succ_eq_map]
      simp only [List.map_cons, List.map_map]
      congr 1
      · have hstate2 : states[slot]? = some st := hstate
        simp [List.getD_eq_getElem?_getD, hstate2]
      · apply List.map_congr_left
        intro i _
        simp only [Function.comp_apply, Nat.succ_eq_add_one]
        have h1 : 4 + (slot + 1) + i = 4 + slot + (i + 1) := by omega
        have h2 : slot + 1 + i = slot + (i + 1) := by omega
        rw [h1, h2]

theorem UDP_DefaultHandler_states (float2buffer : Float → List Nat)
    (senderID : List Nat) (states : List ControllerState) (msg : List Nat) :
    (UDP_DefaultHandler float2buffer senderID states msg).2 = states := by
  unfold UDP_DefaultHandler
  rcases (DSU_parseMessage msg).1 with e | ⟨hdr, mt, body⟩
  · rfl
  · cases mt <;> (repeat' split) <;> rfl

theorem byteAt_set_self (l : List Nat) (i v : Nat) (h : i < l.length) :
    byteAt (l.set i v) i = v := by
  simp [byteAt, List.getD_eq_getElem?_getD, List.getElem?_set_self, h]

theorem byteAt_set_ne (l : List Nat) (i j v : Nat) (h : i ≠ j) :
    byteAt (l.set i v) j = byteAt l j := by
  simp [byteAt, List.getD_eq_getElem?_getD, List.getElem?_set_ne h]

theorem byteAt_zeroCRCField (msg : List Nat) (i : Nat) (h8 : 8 ≤ i) (h12 : i < 12)
    (hlen : i < msg.length) : byteAt (zeroCRCField msg) i = 0 := by
  unfold zeroCRCField
  interval_cases i <;>
    simp [byteAt_set_self, byteAt_set_ne, List.length_set, hlen]

theorem declaredCRC_eq (msg : List Nat) (h : 12 ≤ msg.length) :
    declaredCRC msg = [byteAt msg 8, byteAt msg 9, byteAt msg 10, byteAt msg 11] := by
  apply List.ext_getElem?
  intro i
  have hbyte : ∀ j : Nat, j < 12 → msg[j]? = some (byteAt msg j) := by
    intro j hj
    have hjl : j < msg.length := by omega
    simp [byteAt, List.getD_eq_getElem?_getD, List.getElem?_eq_getElem hjl]
  match i with
  | 0 => simpa [declaredCRC, List.getElem?_take, List.getElem?_drop] using hbyte 8 (by omega)
  | 1 => simpa [declaredCRC, List.getElem?_take, List.getElem?_drop] using hbyte 9 (by omega)
  | 2 => simpa [declaredCRC, List.getElem?_take, List.getElem?_drop] using hbyte 10 (by omega)
  | 3 => simpa [declaredCRC, List.getElem?_take, List.getElem?_drop] using hbyte 11 (by omega)
  | n + 4 => simp [declaredCRC, List.getElem?_take]

/-! ### Claims -/

/-- C8: for every width w in the set 1, 2, 4, 8 and every n below 256 ^ w,
decoding the little-endian buffer produced by DSU_number2buffer with
DSU_littleEndian2number returns n. -/
theorem claim_C8_uint_roundtrip (w : Nat) (_hw : w = 1 ∨ w = 2 ∨ w = 4 ∨ w = 8)
    (n : Nat) (hn : n < 256 ^ w) :
    DSU_littleEndian2number (DSU_number2buffer n w) = n := by
  rw [DSU_littleEndian2number_number2buffer, Nat.mod_eq_of_lt hn]

/-- C8 witness: the round trip at w = 4, n = 123456. -/
theorem claim_C8_uint_roundtrip_witness :
    (4 = 1 ∨ 4 = 2 ∨ 4 = 4 ∨ 4 = 8) ∧ 123456 < 256 ^ 4 ∧
      DSU_littleEndian2number (DSU_number2buffer 123456 4) = 123456 :=
  ⟨by decide, by decide,
    claim_C8_uint_roundtrip 4 (by decide) 123456 (by decide)⟩

/-- C6: DSU_calcCRC32 returns, for every frame, the unsigned 32-bit cyclic
checksum of the frame with bytes 8-11 forced to zero (the signed dependency
result mapped into the unsigned range by adding 2 ^ 32 when negative),
serialized as exactly 4 little-endian bytes; and the encode path stores at
offsets 8-11 exactly the value `DSU_calcCRC32` recomputes from the stored
frame on the decode path. -/
theorem claim_C6_checksum_engine :
    (∀ msg : List Nat,
        (DSU_calcCRC32 msg).1 = DSU_number2buffer (crcUnsigned (zeroCRCField msg)) 4
        ∧ crcUnsigned (zeroCRCField msg) < 2 ^ 32
        ∧ ((DSU_calcCRC32 msg).1).length = 4)
    ∧ (∀ (a b c d : Nat) (t : MessageTypes) (data : List Nat),
        ((DSU_generateMessage [a, b, c, d] t data).drop 8).take 4 =
          (DSU_calcCRC32 (DSU_generateMessage [a, b, c, d] t data)).1) := by
  constructor
  · intro msg
    refine ⟨calcCRC32_fst msg, crcUnsigned_lt_two_pow _, ?_⟩
    rw [calcCRC32_fst]
    exact DSU_number2buffer_length _ 4
  · intro a b c d t data
    rw [DSU_generateMessage_eq_wireFrame]
    have h1 : ((wireFrame a b c d t data).drop 8).take 4 =
        DSU_number2buffer (crcVal a b c d t data) 4 := by
      simp [wireFrame, DSU_number2buffer]
    have h2 : (DSU_calcCRC32 (wireFrame a b c d t data)).1 =
        DSU_number2buffer (crcVal a b c d t data) 4 := by
      rw [calcCRC32_fst, zeroCRCField_wireFrame]
      rfl
    rw [h1, h2]

/-- C9: DSU_setControllerState throws exactly on indices outside 0-3 and
DSU_setControllersState throws exactly on arrays of length other than 4; in
the error cases the store is unchanged, otherwise the designated slot (or
the whole array) is replaced. -/
theorem claim_C9_state_update_contract (states : List ControllerState)
    (index : Int) (s : ControllerState) (newStates : List ControllerState) :
    ((index < 0 ∨ 3 < index) →
      DSU_setControllerState states index s = (.error "Invalid controller index", states))
    ∧ (0 ≤ index → index ≤ 3 →
      DSU_setControllerState states index s = (.ok (), states.set index.toNat s))
    ∧ (newStates.length ≠ 4 →
      DSU_setControllersState states newStates =
        (.error "Invalid controller state array length", states))
    ∧ (newStates.length = 4 →
      DSU_setControllersState states newStates = (.ok (), newStates)) := by
  refine ⟨?_, ?_, ?_, ?_⟩
  · intro h
    simp [DSU_setControllerState, h]
  · intro h0 h3
    rw [DSU_setControllerState, if_neg (by omega)]
  · intro h
    simp [DSU_setControllersState, h]
  · intro h
    simp [DSU_setControllersState, h]

/-- C9 witness: index 5 is rejected with the store unchanged, a 0-entry
array is rejected with the store unchanged, and index 2 replaces slot 2. -/
theorem claim_C9_state_update_contract_witness :
    DSU_setControllerState (List.replicate 4 DSU_dummyState) 5 DSU_dummyState
      = (.error "Invalid controller index", List.replicate 4 DSU_dummyState)
    ∧ DSU_setControllersState (List.replicate 4 DSU_dummyState) []
      = (.error "Invalid controller state array length", List.replicate 4 DSU_dummyState)
    ∧ DSU_setControllerState (List.replicate 4 DSU_dummyState) 2 DSU_dummyState
      = (.ok (), (List.replicate 4 DSU_dummyState).set 2 DSU_dummyState) :=
  ⟨(claim_C9_state_update_contract _ 5 DSU_dummyState []).1 (by norm_num),
   (claim_C9_state_update_contract (List.replicate 4 DSU_dummyState) 5 DSU_dummyState []).2.2.1
     (by simp),
   (claim_C9_state_update_contract _ 2 DSU_dummyState []).2.1 (by norm_num) (by norm_num)⟩

/-- C1 (failing input): a frame generated for ControllerMotor or Rumble
passes both validations but parses back with kind Unknown, because the
encoder wrote the decimal literals 110001/110002 while the decoder matches
the hexadecimal rendering of the code (only 0x110001/0x110002 decode to
those kinds); the three 0x0010000x kinds and the bodies do round-trip. -/
theorem claim_C1_motor_rumble_code_bug :
    parseResultKind (DSU_generateMessage [1, 2, 3, 4] .ControllerMotor [5, 6]) =
      some .Unknown
    ∧ parseResultBody (DSU_generateMessage [1, 2, 3, 4] .ControllerMotor [5, 6]) =
      some [5, 6]
    ∧ parseResultKind (DSU_generateMessage [1, 2, 3, 4] .Rumble []) = some .Unknown
    ∧ DSU_messageType2buffer .ControllerMotor = [177, 173, 1, 0]
    ∧ DSU_littleEndian2number (DSU_messageType2buffer .ControllerMotor) = 110001
    ∧ hexKeyToType 1114113 = .ControllerMotor
    ∧ parseResultKind (DSU_generateMessage [1, 2, 3, 4] .ConnectedControllers [0]) =
      some .ConnectedControllers := by
  decide

/-- C3 (failing input): in the connected case the synthesized identifier is
not written as claimed; the 4 sender-identifier bytes land at offsets 4-7,
offsets 8-9 stay zero, and the slot write is dropped (it was addressed at
index 5 of a 4-byte buffer), so byte 9 is 0 rather than the slot index; the
rest of the layout (slot byte, constants 2/2/1, battery 5, zero tail when
disconnected) is as described. -/
theorem claim_C3_identifier_code_bug :
    DSU_createControllerData [0xAA, 0xBB, 0xCC, 0xDD] 1 true
      = [1, 2, 2, 1, 0xAA, 0xBB, 0xCC, 0xDD, 0, 0, 5, 0]
    ∧ byteAt (DSU_createControllerData [0xAA, 0xBB, 0xCC, 0xDD] 1 true) 9 = 0
    ∧ DSU_createControllerData [0xAA, 0xBB, 0xCC, 0xDD] 3 false
      = [3, 0, 0, 0, 0, 0, 0, 0, 0, 0, 0, 0] := by
  decide

/-- C7: DSU_calcCRC32 permanently zeroes bytes 8-11 of its argument, and
DSU_parseMessage, which hands the caller buffer to it, leaves the caller
buffer with bytes 8-11 zero (whether parsing succeeds or throws); whenever
the declared checksum field was not already zero, the buffer after a parse
differs from the original. -/
theorem claim_C7_checksum_field_clobbered (msg : List Nat) :
    (DSU_calcCRC32 msg).2 = zeroCRCField msg
    ∧ (DSU_parseMessage msg).2 = zeroCRCField msg
    ∧ (∀ i, 8 ≤ i → i < 12 → i < msg.length →
        byteAt (DSU_parseMessage msg).2 i = 0)
    ∧ (12 ≤ msg.length → declaredCRC msg ≠ [0, 0, 0, 0] →
        (DSU_parseMessage msg).2 ≠ msg) := by
  have hparse2 : (DSU_parseMessage msg).2 = zeroCRCField msg := by
    simp only [DSU_parseMessage]
    split_ifs <;> rfl
  refine ⟨rfl, hparse2, ?_, ?_⟩
  · intro i h8 h12 hlen
    rw [hparse2]
    exact byteAt_zeroCRCField msg i h8 h12 hlen
  · intro hlen hne heq
    rw [hparse2] at heq
    apply hne
    have hb : ∀ i, 8 ≤ i → i < 12 → byteAt msg i = 0 := by
      intro i h8 h12
      have hl : i < msg.length := by omega
      rw [← heq]
      exact byteAt_zeroCRCField msg i h8 h12 hl
    rw [declaredCRC_eq msg hlen, hb 8 (by omega) (by omega),
      hb 9 (by omega) (by omega), hb 10 (by omega) (by omega),
      hb 11 (by omega) (by omega)]

/-- C7 witness: the bytes 0..19 buffer has a nonzero checksum field, and
after a parse the buffer differs from the original with byte 8 zeroed. -/
theorem claim_C7_checksum_field_clobbered_witness :
    12 ≤ (List.range 20).length ∧ declaredCRC (List.range 20) ≠ [0, 0, 0, 0]
    ∧ (DSU_parseMessage (List.range 20)).2 ≠ List.range 20
    ∧ byteAt (DSU_parseMessage (List.range 20)).2 8 = 0 :=
  ⟨by decide, by decide,
   (claim_C7_checksum_field_clobbered (List.range 20)).2.2.2 (by decide) (by decide),
   (claim_C7_checksum_field_clobbered (List.range 20)).2.2.1 8 (by decide) (by decide)
     (by decide)⟩

/-- C5: on any datagram carrying at least a full header, DSU_parseMessage
throws the length-mismatch error exactly when the raw length minus 16
differs from the declared length field; when the length check passes it
throws the checksum-mismatch error exactly when the declared checksum
differs from the checksum recomputed over the frame with its checksum bytes
zeroed; and a parse result is returned exactly when both validations
pass. -/
theorem claim_C5_parse_validation (msg : List Nat) (h16 : 16 ≤ msg.length) :
    ((DSU_parseMessage msg).1 = .error .lengthMismatch ↔
      msg.length - 16 ≠ declaredLen msg)
    ∧ (msg.length - 16 = declaredLen msg →
        ((DSU_parseMessage msg).1 = .error .crcMismatch ↔
          declaredCRC msg ≠ DSU_number2buffer (crcUnsigned (zeroCRCField msg)) 4))
    ∧ ((∃ r, (DSU_parseMessage msg).1 = .ok r) ↔
        (msg.length - 16 = declaredLen msg ∧
          declaredCRC msg = DSU_number2buffer (crcUnsigned (zeroCRCField msg)) 4)) := by
  have htake : msg.length - (msg.take 16).length = msg.length - 16 := by
    simp only [List.length_take]
    omega
  have hb6 : byteAt (msg.take 16) 6 = byteAt msg 6 := by
    simp [byteAt, List.getD_eq_getElem?_getD, List.getElem?_take]
  have hb7 : byteAt (msg.take 16) 7 = byteAt msg 7 := by
    simp [byteAt, List.getD_eq_getElem?_getD, List.getElem?_take]
  have hhdr : ((msg.take 16).drop 8).take 4 = declaredCRC msg := by
    rw [declaredCRC, List.drop_take]
    simp [List.take_take]
  unfold DSU_parseMessage
  simp only [htake, hb6, hb7, hhdr, calcCRC32_fst]
  rw [show byteAt msg 6 + byteAt msg 7 * 256 = declaredLen msg from rfl]
  split_ifs with h1 h2
  · refine ⟨?_, ?_, ?_⟩ <;> simp [h1]
  · refine ⟨?_, ?_, ?_⟩ <;> simp [h1, h2]
  · push_neg at h1 h2
    refine ⟨?_, ?_, ?_⟩ <;> simp [h1, h2]

/-- Concrete connected controller state used as a test fixture. -/
def exampleConnectedState : ControllerState :=
  { DSU_dummyState with connected := true }

/-- C2 counterexample: a connected-controllers query for the single slot
index 1, against a store where slot 1 is connected and slot 0 is not,
produces one response keyed by slot 0's flag (the loop index), not by the
requested slot's flag: the response body is the disconnected summary of
slot 1, not the connected one the claim requires. -/
theorem claim_C2_counterexample_loop_index_flag :
    (UDP_DefaultHandler (fun _ => [0, 0, 0, 0]) [9, 9, 9, 9]
        [DSU_dummyState, exampleConnectedState, DSU_dummyState, DSU_dummyState]
        (DSU_generateMessage [9, 9, 9, 9] .ConnectedControllers
          [1, 0, 0, 0, 1])).1
      = [DSU_generateMessage [9, 9, 9, 9] .ConnectedControllers
          (DSU_createControllerData [9, 9, 9, 9] 1 false)]
    ∧ (([DSU_dummyState, exampleConnectedState, DSU_dummyState,
        DSU_dummyState].getD 1 DSU_dummyState).connected = true)
    ∧ (UDP_DefaultHandler (fun _ => [0, 0, 0, 0]) [9, 9, 9, 9]
        [DSU_dummyState, exampleConnectedState, DSU_dummyState, DSU_dummyState]
        (DSU_generateMessage [9, 9, 9, 9] .ConnectedControllers
          [1, 0, 0, 0, 1])).1
      ≠ [DSU_generateMessage [9, 9, 9, 9] .ConnectedControllers
          (DSU_createControllerData [9, 9, 9, 9] 1 true)] := by
  refine ⟨by decide, by decide, by decide⟩

/-- C2 amended: for every connected-controllers query whose body carries a
little-endian count n followed by the requested slot bytes, the handler
emits min n 4 responses (all n when n is at most the 4 store slots; the
state lookup at loop index 4 throws and is caught, ending the loop early
otherwise), and the i-th response body is the slot summary of the i-th
requested slot byte keyed by the connection flag of store slot i — the loop
index — rather than by the requested slot's own flag. -/
theorem claim_C2_amended_connected_controllers (float2buffer : Float → List Nat)
    (a b c d n : Nat) (states : List ControllerState) (slots : List Nat)
    (hst : states.length = 4) (hsl : slots.length = n) (hn : n + 8 < 65536) :
    (UDP_DefaultHandler float2buffer [a, b, c, d] states
        (DSU_generateMessage [a, b, c, d] .ConnectedControllers
          (DSU_number2buffer n 4 ++ slots))).1
      = (List.range (min n 4)).map (fun i =>
          DSU_generateMessage [a, b, c, d] .ConnectedControllers
            (DSU_createControllerData [a, b, c, d] (byteAt slots i)
              ((states.getD i DSU_dummyState).connected))) := by
  have hblen : (DSU_number2buffer n 4 ++ slots).length = 4 + n := by
    simp [DSU_number2buffer_length, hsl]
  have hparse := DSU_parseMessage_wireFrame a b c d .ConnectedControllers
    (DSU_number2buffer n 4 ++ slots) (by rw [hblen]; omega)
  have htype : hexKeyToType (DSU_littleEndian2number
      (DSU_messageType2buffer .ConnectedControllers)) = .ConnectedControllers := rfl
  rw [htype] at hparse
  have htk : (DSU_number2buffer n 4 ++ slots).take 4 = DSU_number2buffer n 4 :=
    List.take_left' (DSU_number2buffer_length n 4)
  have hcount : DSU_littleEndian2number ((DSU_number2buffer n 4 ++ slots).take 4) = n := by
    rw [htk, DSU_littleEndian2number_number2buffer]
    have h4 : (256 : Nat) ^ 4 = 4294967296 := by norm_num
    rw [h4]
    omega
  rw [DSU_generateMessage_eq_wireFrame]
  simp only [UDP_DefaultHandler, hparse, hcount,
    DSU_connectedLoop_map, hst, Nat.sub_zero, Nat.zero_add]
  apply List.map_congr_left
  intro i _
  have h4 : 4 + 0 + i = (DSU_number2buffer n 4).length + i := by
    rw [DSU_number2buffer_length]
  rw [h4, byteAt_append_right]

/-- C2 amended witness: a query for slots 0 and 1 (n = 2) against the
fixture store yields exactly the two frames described by the amended
statement. -/
theorem claim_C2_amended_connected_controllers_witness :
    ([DSU_dummyState, exampleConnectedState, DSU_dummyState,
        DSU_dummyState] : List ControllerState).length = 4
    ∧ ([0, 1] : List Nat).length = 2 ∧ 2 + 8 < 65536
    ∧ (UDP_DefaultHandler (fun _ => [0, 0, 0, 0]) [9, 9, 9, 9]
        [DSU_dummyState, exampleConnectedState, DSU_dummyState, DSU_dummyState]
        (DSU_generateMessage [9, 9, 9, 9] .ConnectedControllers
          (DSU_number2buffer 2 4 ++ [0, 1]))).1
      = (List.range (min 2 4)).map (fun i =>
          DSU_generateMessage [9, 9, 9, 9] .ConnectedControllers
            (DSU_createControllerData [9, 9, 9, 9] (byteAt [0, 1] i)
              (([DSU_dummyState, exampleConnectedState, DSU_dummyState,
                  DSU_dummyState].getD i DSU_dummyState).connected))) :=
  ⟨by decide, by decide, by decide,
   claim_C2_amended_connected_controllers (fun _ => [0, 0, 0, 0]) 9 9 9 9 2
     [DSU_dummyState, exampleConnectedState, DSU_dummyState, DSU_dummyState]
     [0, 1] (by decide) (by decide) (by decide)⟩

/-- C4: on a frame that parses as a controller-data query, mode byte 1
answers with exactly one controller-data response carrying the state
payload of the slot named by body byte 1 read from the store, mode byte 2
does the same for the slot named by body byte 7, any other mode byte
produces no response and no error, and the state payload is always exactly
80 bytes. -/
theorem claim_C4_controller_data_dispatch (float2buffer : Float → List Nat)
    (senderID : List Nat) (states : List ControllerState) (msg body : List Nat)
    (hkind : parseResultKind msg = some .ControllerData)
    (hbody : parseResultBody msg = some body)
    (hst : states.length = 4) :
    (∀ idx, byteAt body 0 = 1 → body[1]? = some idx → idx ≤ 3 →
      (UDP_DefaultHandler float2buffer senderID states msg).1
        = [DSU_generateMessage senderID .ControllerData
            (DSU_state2buffer float2buffer senderID idx
              (states.getD idx DSU_dummyState))])
    ∧ (∀ idx, byteAt body 0 = 2 → body[7]? = some idx → idx ≤ 3 →
      (UDP_DefaultHandler float2buffer senderID states msg).1
        = [DSU_generateMessage senderID .ControllerData
            (DSU_state2buffer float2buffer senderID idx
              (states.getD idx DSU_dummyState))])
    ∧ (byteAt body 0 ≠ 1 → byteAt body 0 ≠ 2 →
      UDP_DefaultHandler float2buffer senderID states msg = ([], states))
    ∧ (∀ (slot : Nat) (st : ControllerState),
      (DSU_state2buffer float2buffer senderID slot st).length = 80) := by
  have hlen80 : ∀ (slot : Nat) (st : ControllerState),
      (DSU_state2buffer float2buffer senderID slot st).length = 80 := by
    intro slot st
    simp [DSU_state2buffer, bufCopy_length, List.length_set]
  cases hr : (DSU_parseMessage msg).1 with
  | error e => simp [parseResultKind, hr, Except.toOption] at hkind
  | ok r =>
    obtain ⟨hdr, mt, bd⟩ := r
    simp only [parseResultKind, hr, Except.toOption, Option.map_some] at hkind
    simp only [parseResultBody, hr, Except.toOption, Option.map_some] at hbody
    have hmt : mt = .ControllerData := by simpa using hkind
    have hbd : bd = body := by simpa using hbody
    subst hmt hbd
    have hget : ∀ idx : Nat, idx ≤ 3 →
        DSU_getControllerState states idx = some (states.getD idx DSU_dummyState) := by
      intro idx hle
      have hlt : idx < states.length := by omega
      simp [DSU_getControllerState, List.getElem?_eq_getElem hlt,
        List.getD_eq_getElem?_getD]
    refine ⟨?_, ?_, ?_, hlen80⟩
    · intro idx hb0 hidx hle
      simp [UDP_DefaultHandler, hr, hb0, hidx, hget idx hle]
    · intro idx hb0 hidx hle
      simp [UDP_DefaultHandler, hr, hb0, hidx, hget idx hle]
    · intro hb1 hb2
      simp [UDP_DefaultHandler, hr, hb1, hb2]

/-- C4 witness: the query body 01 02 (mode slot, slot 2) against the fixture
store yields exactly one controller-data frame carrying slot 2's payload. -/
theorem claim_C4_controller_data_dispatch_witness :
    parseResultKind (DSU_generateMessage [9, 9, 9, 9] .ControllerData [1, 2])
      = some .ControllerData
    ∧ (UDP_DefaultHandler (fun _ => [0, 0, 0, 0]) [9, 9, 9, 9]
        [DSU_dummyState, DSU_dummyState, exampleConnectedState, DSU_dummyState]
        (DSU_generateMessage [9, 9, 9, 9] .ControllerData [1, 2])).1
      = [DSU_generateMessage [9, 9, 9, 9] .ControllerData
          (DSU_state2buffer (fun _ => [0, 0, 0, 0]) [9, 9, 9, 9] 2
            ([DSU_dummyState, DSU_dummyState, exampleConnectedState,
              DSU_dummyState].getD 2 DSU_dummyState))] :=
  ⟨by decide,
   (claim_C4_controller_data_dispatch (fun _ => [0, 0, 0, 0]) [9, 9, 9, 9]
      [DSU_dummyState, DSU_dummyState, exampleConnectedState, DSU_dummyState]
      (DSU_generateMessage [9, 9, 9, 9] .ControllerData [1, 2]) [1, 2]
      (by decide) (by decide) (by decide)).1 2 (by decide) (by decide) (by decide)⟩

/-- C10: on a frame that parses as a controller-data query whose resolved
slot index lies outside 0-3 — mode 1 with the index in body byte 1, or mode
2 with the index in body byte 7 — the state lookup yields no state, the
handler emits no frame and ends normally (the thrown access error is caught
inside it), and the handler never changes the controller state store on any
datagram. -/
theorem claim_C10_out_of_range_slot (float2buffer : Float → List Nat)
    (senderID : List Nat) (states : List ControllerState) (msg body : List Nat)
    (hkind : parseResultKind msg = some .ControllerData)
    (hbody : parseResultBody msg = some body)
    (hst : states.length = 4) :
    (∀ idx, byteAt body 0 = 1 → body[1]? = some idx → 3 < idx →
      UDP_DefaultHandler float2buffer senderID states msg = ([], states)
        ∧ DSU_getControllerState states idx = none)
    ∧ (∀ idx, byteAt body 0 = 2 → body[7]? = some idx → 3 < idx →
      UDP_DefaultHandler float2buffer senderID states msg = ([], states)
        ∧ DSU_getControllerState states idx = none)
    ∧ (∀ msg' : List Nat,
        (UDP_DefaultHandler float2buffer senderID states msg').2 = states) := by
  have hnone : ∀ idx : Nat, 3 < idx → DSU_getControllerState states idx = none := by
    intro idx hgt
    simp [DSU_getControllerState, List.getElem?_eq_none_iff]
    omega
  cases hr : (DSU_parseMessage msg).1 with
  | error e => simp [parseResultKind, hr, Except.toOption] at hkind
  | ok r =>
    obtain ⟨hdr, mt, bd⟩ := r
    simp only [parseResultKind, hr, Except.toOption, Option.map_some] at hkind
    simp only [parseResultBody, hr, Except.toOption, Option.map_some] at hbody
    have hmt : mt = .ControllerData := by simpa using hkind
    have hbd : bd = body := by simpa using hbody
    subst hmt hbd
    refine ⟨?_, ?_,
      fun msg' => UDP_DefaultHandler_states float2buffer senderID states msg'⟩
    · intro idx hb0 hidx hgt
      refine ⟨?_, hnone idx hgt⟩
      simp [UDP_DefaultHandler, hr, hb0, hidx, hnone idx hgt]
    · intro idx hb0 hidx hgt
      refine ⟨?_, hnone idx hgt⟩
      simp [UDP_DefaultHandler, hr, hb0, hidx, hnone idx hgt]

/-- C10 witness: the mode-1 query body 01 C8 (slot 200) and the mode-2
query body 02 00 00 00 00 00 00 C8 (slot 200 in byte 7) against the fixture
store each yield no frame and leave the store untouched. -/
theorem claim_C10_out_of_range_slot_witness :
    parseResultKind (DSU_generateMessage [9, 9, 9, 9] .ControllerData [1, 200])
      = some .ControllerData
    ∧ UDP_DefaultHandler (fun _ => [0, 0, 0, 0]) [9, 9, 9, 9]
        (List.replicate 4 DSU_dummyState)
        (DSU_generateMessage [9, 9, 9, 9] .ControllerData [1, 200])
      = ([], List.replicate 4 DSU_dummyState)
    ∧ UDP_DefaultHandler (fun _ => [0, 0, 0, 0]) [9, 9, 9, 9]
        (List.replicate 4 DSU_dummyState)
        (DSU_generateMessage [9, 9, 9, 9] .ControllerData
          [2, 0, 0, 0, 0, 0, 0, 200])
      = ([], List.replicate 4 DSU_dummyState)
    ∧ DSU_getControllerState (List.replicate 4 DSU_dummyState) 200 = none :=
  ⟨by decide,
   ((claim_C10_out_of_range_slot (fun _ => [0, 0, 0, 0]) [9, 9, 9, 9]
      (List.replicate 4 DSU_dummyState)
      (DSU_generateMessage [9, 9, 9, 9] .ControllerData [1, 200]) [1, 200]
      (by decide) (by decide) (by decide)).1 200 (by decide) (by decide)
      (by decide)).1,
   ((claim_C10_out_of_range_slot (fun _ => [0, 0, 0, 0]) [9, 9, 9, 9]
      (List.replicate 4 DSU_dummyState)
      (DSU_generateMessage [9, 9, 9, 9] .ControllerData
        [2, 0, 0, 0, 0, 0, 0, 200]) [2, 0, 0, 0, 0, 0, 0, 200]
      (by decide) (by decide) (by decide)).2.1 200 (by decide) (by decide)
      (by decide)).1,
   ((claim_C10_out_of_range_slot (fun _ => [0, 0, 0, 0]) [9, 9, 9, 9]
      (List.replicate 4 DSU_dummyState)
      (DSU_generateMessage [9, 9, 9, 9] .ControllerData [1, 200]) [1, 200]
      (by decide) (by decide) (by decide)).1 200 (by decide) (by decide)
      (by decide)).2⟩

/-- C5 witness: the validation characterization instantiated at the 24-byte
buffer of bytes 0..23. -/
theorem claim_C5_parse_validation_witness :
    16 ≤ (List.range 24).length
    ∧ (((DSU_parseMessage (List.range 24)).1 = .error .lengthMismatch ↔
        (List.range 24).length - 16 ≠ declaredLen (List.range 24))
      ∧ ((List.range 24).length - 16 = declaredLen (List.range 24) →
          ((DSU_parseMessage (List.range 24)).1 = .error .crcMismatch ↔
            declaredCRC (List.range 24) ≠
              DSU_number2buffer (crcUnsigned (zeroCRCField (List.range 24))) 4))
      ∧ ((∃ r, (DSU_parseMessage (List.range 24)).1 = .ok r) ↔
          ((List.range 24).length - 16 = declaredLen (List.range 24) ∧
            declaredCRC (List.range 24) =
              DSU_number2buffer (crcUnsigned (zeroCRCField (List.range 24))) 4))) :=
  ⟨by decide, claim_C5_parse_validation (List.range 24) (by decide)⟩
